import Mathlib

/-!
Shallow embedding of `awscli/customizations/paginate.py` (pagination
unification for the AWS CLI) together with proofs about its behaviour.

The module rewrites the argument table of every paginating operation:
it hides the service-specific pagination arguments, registers a
post-parse callback that disables automatic pagination when a hidden
argument was supplied, and inserts the generic `--starting-token` and
`--max-items` arguments.

Python-level effects are made explicit: dictionaries are association
lists, in-place mutation is state passing, and raised exceptions
(`KeyError`, `TypeError`, `AttributeError`) are explicit error values.
-/

set_option autoImplicit false

namespace Paginate

/-- Parsed CLI argument values. The code never inspects them, only tests
them against `None`; strings are a faithful stand-in. -/
abbrev Value := String

/-- A Python string-keyed dictionary, modelled as an association list
(duplicate-free in every state the code builds). -/
abbrev Dict (α : Type) := List (String × α)

/-- `d[k]` lookup; `none` where Python would raise `KeyError`. -/
def dictGet {α : Type} : Dict α → String → Option α
  | [], _ => none
  | (k', v) :: rest, k => if k' == k then some v else dictGet rest k

/-- `d[k] = v`: overwrite in place when the key exists, append otherwise. -/
def dictSet {α : Type} : Dict α → String → α → Dict α
  | [], k, v => [(k, v)]
  | (k', v') :: rest, k, v =>
      if k' == k then (k', v) :: rest else (k', v') :: dictSet rest k v

/-- Worker for `pyReplace`: replaces non-overlapping occurrences of `pat`
left to right. Fuel is bounded by the input length, so the `0` case is
never reached at the call sites. -/
def replaceFromFuel (pat rep : List Char) : Nat → List Char → List Char
  | 0, s => s
  | _ + 1, [] => []
  | fuel + 1, c :: cs =>
      if !pat.isEmpty && pat.isPrefixOf (c :: cs) then
        rep ++ replaceFromFuel pat rep fuel (cs.drop (pat.length - 1))
      else
        c :: replaceFromFuel pat rep fuel cs

/-- Python `s.replace(pat, rep)` for nonempty `pat` (the only case the
source uses). -/
def pyReplace (s pat rep : String) : String :=
  String.mk (replaceFromFuel pat.toList rep.toList (s.toList.length + 1) s.toList)

/-- Python `s.lstrip('-')`: drop every leading `'-'` character. -/
def lstripDashes (s : String) : String :=
  String.mk (s.toList.dropWhile (fun c => c == '-'))

/-- The exceptions the module can raise, as explicit error values. -/
inductive PyError where
  | keyError
  | attributeError
  | typeError (msg : String)
  deriving Repr, DecidableEq

/-- A parameter descriptor from `operation.params`: internal `name`,
CLI-facing `cli_name` (with leading option markers) and declared `type`. -/
structure Param where
  name : String
  cli_name : String
  type : String
  deriving Repr, DecidableEq

/-- `operation.pagination['input_token']`: either a single name or a list
of names (`if not isinstance(tokens, list)`). -/
inductive TokenSpec where
  | single (name : String)
  | many (names : List String)
  deriving Repr, DecidableEq

/-- The pagination configuration mapping: mandatory `input_token`,
optional `limit_key`. -/
structure Pagination where
  input_token : TokenSpec
  limit_key : Option String
  deriving Repr, DecidableEq

/-- The slice of an operation object the module reads. -/
structure Operation where
  name : String
  can_paginate : Bool
  pagination : Pagination
  params : List Param
  deriving Repr, DecidableEq

/-- A `PageArgument` as built by `PageArgument.__init__`: the constructor
stores the name, help text and parse type without validating the type. -/
structure PageArgument where
  name : String
  documentation : String
  parse_type : String
  deriving Repr, DecidableEq

/-- `PageArgument.__init__(name, documentation, operation, parse_type)`:
stores the name, help text and parse type (the botocore `StringParameter`
it also builds is external and carries no behaviour used here). It
performs no validation of `parse_type`. -/
def PageArgument.init (name documentation parse_type : String) : PageArgument :=
  ⟨name, documentation, parse_type⟩

/-- `PageArgument.type_map` has exactly the keys `string` and `integer`;
this is the membership test `t in PageArgument.type_map`. -/
def typeMapContains (t : String) : Bool :=
  t == "string" || t == "integer"

/-- `PageArgument.cli_name`: always `"--" + name`. -/
def PageArgument.cli_name (pa : PageArgument) : String :=
  "--" ++ pa.name

/-- `PageArgument.cli_type_name`. -/
def PageArgument.cli_type_name (pa : PageArgument) : String :=
  pa.parse_type

/-- `PageArgument.required`: always `False`. -/
def PageArgument.required (_pa : PageArgument) : Bool :=
  false

/-- Modelled from the spec: `py_name` comes from `BaseCLIArgument` in
`awscli/arguments.py`, which is not part of the sources here. The spec
calls it the argument's internal key; consistently with the
`token.replace('-', '_')` convention used in this module, it is the name
with hyphens replaced by underscores. -/
def PageArgument.py_name (pa : PageArgument) : String :=
  pyReplace pa.name "-" "_"

/-- An entry registered on an argparse parser by `add_to_parser`. -/
structure ParserEntry where
  flag : String
  dest : String
  deriving Repr, DecidableEq

/-- `PageArgument.add_to_parser`: looks the parse type up in `type_map`
(`KeyError` when absent) and registers the flag with the parser. -/
def PageArgument.addToParser (pa : PageArgument) (parser : List ParserEntry) :
    Except PyError (List ParserEntry) :=
  if typeMapContains pa.parse_type then
    .ok (parser ++ [⟨pa.cli_name, pa.py_name⟩])
  else
    .error .keyError

/-- `PageArgument.add_to_params`: write `value` under the internal key
when it is not `None`, otherwise leave the mapping alone. -/
def PageArgument.add_to_params (pa : PageArgument) (parameters : Dict Value)
    (value : Option Value) : Dict Value :=
  match value with
  | none => parameters
  | some v => dictSet parameters pa.py_name v

/-- An argument-table entry: the `_UNDOCUMENTED` flag that
`_remove_existing_paging_arguments` sets, plus the `PageArgument` payload
for the entries this module inserts (`none` for pre-existing entries). -/
structure ArgEntry where
  undocumented : Bool
  page : Option PageArgument
  deriving Repr, DecidableEq

/-- The argument table: CLI-facing name to argument descriptor. -/
abbrev ArgTable := Dict ArgEntry

/-- `_get_cli_name(param_objects, token_name)`: the first parameter whose
`name` equals `token_name` yields its `cli_name` stripped of leading
dashes; no match falls through to Python's implicit `None`. -/
def get_cli_name (param_objects : List Param) (token_name : String) : Option String :=
  match param_objects.find? (fun param => param.name == token_name) with
  | some param => some (lstripDashes param.cli_name)
  | none => none

/-- `_get_input_tokens(operation)`: normalize `input_token` to a list. -/
def get_input_tokens (operation : Operation) : List String :=
  match operation.pagination.input_token with
  | .single tokens => [tokens]
  | .many tokens => tokens

/-- The loop of `_get_all_cli_input_tokens` over the input tokens,
yielding one (possibly `None`) CLI name per token. -/
def yieldCliNames (params : List Param) : List String → List (Option String)
  | [] => []
  | token_name :: rest => get_cli_name params token_name :: yieldCliNames params rest

/-- `_get_all_cli_input_tokens(operation)`: the CLI names of all input
tokens, then the CLI name of the limit key when one is configured. -/
def get_all_cli_input_tokens (operation : Operation) : List (Option String) :=
  yieldCliNames operation.params (get_input_tokens operation) ++
    match operation.pagination.limit_key with
    | some key_name => [get_cli_name operation.params key_name]
    | none => []

/-- One step of `_remove_existing_paging_arguments`:
`argument_table[cli_name]._UNDOCUMENTED = True`. Indexing with `None` or
with a key that is not in the table raises `KeyError`. -/
def hideOne (argument_table : ArgTable) : Option String → Except PyError ArgTable
  | none => .error .keyError
  | some cli_name =>
      match dictGet argument_table cli_name with
      | none => .error .keyError
      | some entry =>
          .ok (dictSet argument_table cli_name { entry with undocumented := true })

/-- The loop of `_remove_existing_paging_arguments`; on an exception the
table keeps the mutations already performed. -/
def hideAll (argument_table : ArgTable) : List (Option String) → ArgTable × Option PyError
  | [] => (argument_table, none)
  | cli_name :: rest =>
      match hideOne argument_table cli_name with
      | .error e => (argument_table, some e)
      | .ok table' => hideAll table' rest

/-- `_remove_existing_paging_arguments(argument_table, operation)`. -/
def remove_existing_paging_arguments (argument_table : ArgTable) (operation : Operation) :
    ArgTable × Option PyError :=
  hideAll argument_table (get_all_cli_input_tokens operation)

/-- `STARTING_TOKEN_HELP`. -/
def STARTING_TOKEN_HELP : String :=
  "\n<p>A token to specify where to start paginating.  This is the\n<code>NextToken</code> from a previously truncated response.</p>\n"

/-- `MAX_ITEMS_HELP`. -/
def MAX_ITEMS_HELP : String :=
  "\n<p>The total number of items to return.  If the total number\nof items available is more than the value specified in\nmax-items then a <code>NextToken</code> will\nbe provided in the output that you can use to resume pagination.\n"

/-- A callback registration performed through `operation.session.register`:
the event name and the list of hidden CLI names the callback closes over. -/
structure Registration where
  event : String
  input_tokens : List (Option String)
  deriving Repr, DecidableEq

/-- The observable outcome of `unify_paging_params`: the argument table
and session registrations after the call, and the exception if one was
raised (mutations made before the raise are kept, as in Python). -/
structure UnifyOutcome where
  table : ArgTable
  registrations : List Registration
  error : Option PyError
  deriving Repr, DecidableEq

/-- `limit_param`: scan `operation.params` for the parameter named by
`pagination['limit_key']`; `None` when no limit key is configured or no
parameter matches. -/
def findLimitParam (operation : Operation) : Option Param :=
  match operation.pagination.limit_key with
  | some key => operation.params.find? (fun param => param.name == key)
  | none => none

/-- `type_ = limit_param and limit_param.type or 'integer'`: Python
truthiness makes an absent limit parameter, and an empty type string,
default to `integer`. -/
def limitType (limit_param : Option Param) : String :=
  match limit_param with
  | some param => if param.type == "" then "integer" else param.type
  | none => "integer"

/-- The message of the `TypeError` raised on an unsupported limit type. -/
def unsupportedTypeMsg (type_ : String) (op_name : String) (param_name : String) : String :=
  "Unsupported pagination type " ++ type_ ++ " for operation " ++ op_name ++
    " and parameter " ++ param_name

/-- `unify_paging_params(argument_table, operation, event_name)`: the
no-op fast path for non-paginating operations, then in order: hide the
existing paging arguments, register the post-parse callback, insert
`starting-token`, look up the limit parameter and validate its type
(raising `TypeError` on an unsupported one), insert `max-items`. -/
def unify_paging_params (argument_table : ArgTable) (operation : Operation)
    (event_name : String) : UnifyOutcome :=
  if !operation.can_paginate then
    ⟨argument_table, [], none⟩
  else
    match remove_existing_paging_arguments argument_table operation with
    | (table, some e) => ⟨table, [], some e⟩
    | (table, none) =>
        let parsed_args_event :=
          pyReplace event_name "building-argument-table." "operation-args-parsed."
        let registrations : List Registration :=
          [⟨parsed_args_event, get_all_cli_input_tokens operation⟩]
        let table :=
          dictSet table "starting-token"
            ⟨false, some ⟨"starting-token", STARTING_TOKEN_HELP, "string"⟩⟩
        let limit_param := findLimitParam operation
        let type_ := limitType limit_param
        match limit_param with
        | some param =>
            if !typeMapContains param.type then
              ⟨table, registrations,
                some (.typeError (unsupportedTypeMsg type_ operation.name param.name))⟩
            else
              ⟨dictSet table "max-items" ⟨false, some ⟨"max-items", MAX_ITEMS_HELP, type_⟩⟩,
                registrations, none⟩
        | none =>
            ⟨dictSet table "max-items" ⟨false, some ⟨"max-items", MAX_ITEMS_HELP, type_⟩⟩,
              registrations, none⟩

/-- The parsed-args namespace: attribute name to parsed value. A key that
is present with value `none` is an attribute set to `None` (argparse's
default for a flag the user did not pass); a missing key makes `getattr`
raise `AttributeError`. -/
abbrev ParsedArgs := Dict (Option Value)

/-- `getattr(parsed_args, py_name)`. -/
def pyGetattr (parsed_args : ParsedArgs) (py_name : String) : Except PyError (Option Value) :=
  match dictGet parsed_args py_name with
  | some v => .ok v
  | none => .error .attributeError

/-- `check_should_enable_pagination(input_tokens, parsed_args,
parsed_globals)`: for each hidden token, convert hyphens to underscores
and read the attribute; a non-`None` value sets `parsed_globals.paginate`
to `False`. Returns the final flag, or the exception raised mid-loop
(`None` tokens and missing attributes raise `AttributeError`), paired
with the flag state at the point of the raise. -/
def check_should_enable_pagination (input_tokens : List (Option String))
    (parsed_args : ParsedArgs) (paginate : Bool) : Except (PyError × Bool) Bool :=
  match input_tokens with
  | [] => .ok paginate
  | none :: _ => .error (.attributeError, paginate)
  | some token :: rest =>
      match pyGetattr parsed_args (pyReplace token "-" "_") with
      | .error e => .error (e, paginate)
      | .ok value =>
          check_should_enable_pagination rest parsed_args
            (if value.isSome then false else paginate)

/-- Whether the parsed arguments carry a non-`None` value for the hidden
CLI name `n` (after hyphen-to-underscore conversion). -/
def suppliedIn (parsed_args : ParsedArgs) (n : String) : Bool :=
  match dictGet parsed_args (pyReplace n "-" "_") with
  | some (some _) => true
  | _ => false

/-! ### Concrete fixtures used by witnesses and counterexamples -/

/-- A paginating operation whose limit-key parameter has the unsupported
declared type `boolean`. -/
def exOpBadLimit : Operation :=
  ⟨"list-objects", true, ⟨.single "NextToken", some "MaxKeys"⟩,
   [⟨"NextToken", "--next-token", "string"⟩, ⟨"MaxKeys", "--max-keys", "boolean"⟩]⟩

/-- The argument table exposing the two low-level arguments of
`exOpBadLimit`. -/
def exTableBad : ArgTable :=
  [("next-token", ⟨false, none⟩), ("max-keys", ⟨false, none⟩)]

/-- A paginating operation with a single input token and no limit key. -/
def exOpSingle : Operation :=
  ⟨"list-things", true, ⟨.single "NextToken", none⟩,
   [⟨"NextToken", "--next-token", "string"⟩]⟩

/-- The argument table exposing the low-level argument of `exOpSingle`. -/
def exTableSingle : ArgTable :=
  [("next-token", ⟨false, none⟩)]

/-- A paginating operation whose input token has no matching parameter
descriptor. -/
def exOpUnmatched : Operation :=
  ⟨"list-q", true, ⟨.single "Tok", none⟩, []⟩

/-- The operation of spec property 6: two input tokens and a limit key. -/
def exOpTwoTokens : Operation :=
  ⟨"op8", true, ⟨.many ["marker", "marker2"], some "max_results"⟩,
   [⟨"marker", "--marker", "string"⟩, ⟨"marker2", "--marker2", "string"⟩,
    ⟨"max_results", "--max-results", "integer"⟩]⟩

/-- The `--max-items` page argument of a default-typed operation. -/
def exMaxItemsArg : PageArgument :=
  ⟨"max-items", MAX_ITEMS_HELP, "integer"⟩

/-! ### Dictionary lemmas -/

theorem dictGet_dictSet_self {α : Type} (d : Dict α) (k : String) (v : α) :
    dictGet (dictSet d k v) k = some v := by
  induction d with
  | nil => simp [dictGet, dictSet]
  | cons kv rest ih =>
    obtain ⟨k', v'⟩ := kv
    by_cases h : k' = k
    · subst h; simp [dictGet, dictSet]
    · simp [dictGet, dictSet, h, ih]

theorem dictGet_dictSet_ne {α : Type} (d : Dict α) (k k' : String) (v : α)
    (h : k' ≠ k) : dictGet (dictSet d k v) k' = dictGet d k' := by
  induction d with
  | nil => simp [dictGet, dictSet, Ne.symm h]
  | cons kv rest ih =>
    obtain ⟨k0, v0⟩ := kv
    by_cases h0 : k0 = k
    · subst h0
      simp [dictGet, dictSet, Ne.symm h]
    · by_cases h1 : k0 = k'
      · subst h1; simp [dictGet, dictSet, h0]
      · simp [dictGet, dictSet, h0, h1, ih]

theorem length_dictSet_of_mem {α : Type} (d : Dict α) (k : String) (v w : α)
    (h : dictGet d k = some w) : (dictSet d k v).length = d.length := by
  induction d with
  | nil => simp [dictGet] at h
  | cons kv rest ih =>
    obtain ⟨k0, v0⟩ := kv
    by_cases h0 : k0 = k
    · subst h0; simp [dictSet]
    · simp [dictGet, h0] at h
      simp [dictSet, h0, ih h]

theorem length_dictSet_of_not_mem {α : Type} (d : Dict α) (k : String) (v : α)
    (h : dictGet d k = none) : (dictSet d k v).length = d.length + 1 := by
  induction d with
  | nil => simp [dictSet]
  | cons kv rest ih =>
    obtain ⟨k0, v0⟩ := kv
    by_cases h0 : k0 = k
    · subst h0; simp [dictGet] at h
    · simp [dictGet, h0] at h
      simp [dictSet, h0, ih h]

/-! ### General lemmas about the embedded operations -/

theorem yieldCliNames_eq_map (params : List Param) (tokens : List String) :
    yieldCliNames params tokens = tokens.map (get_cli_name params) := by
  induction tokens with
  | nil => rfl
  | cons t ts ih => simp [yieldCliNames, ih]

theorem check_eval (names : List String) (parsed_args : ParsedArgs) (flag : Bool)
    (h : ∀ n ∈ names, (dictGet parsed_args (pyReplace n "-" "_")).isSome = true) :
    check_should_enable_pagination (names.map some) parsed_args flag =
      .ok (if names.any (suppliedIn parsed_args) then false else flag) := by
  induction names generalizing flag with
  | nil => simp [check_should_enable_pagination]
  | cons n rest ih =>
    have hn : (dictGet parsed_args (pyReplace n "-" "_")).isSome = true := h n (by simp)
    have hrest : ∀ m ∈ rest, (dictGet parsed_args (pyReplace m "-" "_")).isSome = true :=
      fun m hm => h m (by simp [hm])
    obtain ⟨w, hw⟩ := Option.isSome_iff_exists.mp hn
    cases w with
    | none =>
      simp [check_should_enable_pagination, pyGetattr, hw, ih flag hrest, suppliedIn]
    | some v =>
      simp [check_should_enable_pagination, pyGetattr, hw, ih false hrest, suppliedIn]

/-! ### Claims -/

/-- C7: for every operation with `can_paginate` false,
`unify_paging_params` leaves the argument table exactly unchanged,
registers no callback and raises no error. -/
theorem unify_non_paginating_identity (tbl : ArgTable) (op : Operation) (ev : String)
    (h : op.can_paginate = false) :
    unify_paging_params tbl op ev = ⟨tbl, [], none⟩ := by
  simp [unify_paging_params, h]

/-- Witness for C7 at a concrete non-paginating operation. -/
theorem unify_non_paginating_identity_witness :
    unify_paging_params [("a", ⟨false, none⟩)]
        ⟨"describe-x", false, ⟨.single "T", none⟩, []⟩ "ev" =
      ⟨[("a", ⟨false, none⟩)], [], none⟩ :=
  unify_non_paginating_identity [("a", ⟨false, none⟩)]
    ⟨"describe-x", false, ⟨.single "T", none⟩, []⟩ "ev" rfl

/-- C8: `_get_all_cli_input_tokens` yields the CLI names of the declared
input tokens in declared order, followed by the CLI name of the limit key
exactly when one is configured; on `input_token = [marker, marker2]` with
`limit_key = max_results` (and matching parameter descriptors) it yields
exactly `[marker, marker2, max-results]`. -/
theorem all_paginated_cli_names_spec :
    (∀ op : Operation, get_all_cli_input_tokens op =
        (get_input_tokens op).map (get_cli_name op.params) ++
          match op.pagination.limit_key with
          | some key_name => [get_cli_name op.params key_name]
          | none => []) ∧
    get_all_cli_input_tokens exOpTwoTokens =
      [some "marker", some "marker2", some "max-results"] := by
  constructor
  · intro op
    simp [get_all_cli_input_tokens, yieldCliNames_eq_map]
  · decide

/-- C9: `add_to_params` leaves the mapping unchanged on an absent value,
writes a present value under the argument's internal key, and in
particular `--max-items 42` lands under `max_items`. -/
theorem add_to_params_spec (pa : PageArgument) (parameters : Dict Value) (v : Value) :
    pa.add_to_params parameters none = parameters ∧
    dictGet (pa.add_to_params parameters (some v)) pa.py_name = some v ∧
    dictGet (exMaxItemsArg.add_to_params parameters (some "42")) "max_items" = some "42" := by
  refine ⟨rfl, ?_, ?_⟩
  · simp [PageArgument.add_to_params, dictGet_dictSet_self]
  · have hkey : exMaxItemsArg.py_name = "max_items" := by decide
    simp [PageArgument.add_to_params, hkey, dictGet_dictSet_self]

/-- C10 (frame property): `add_to_params` changes at most the entry at
the argument's own internal key; every other key reads the same after the
call. -/
theorem add_to_params_frame (pa : PageArgument) (parameters : Dict Value)
    (value : Option Value) (k : String) (h : k ≠ pa.py_name) :
    dictGet (pa.add_to_params parameters value) k = dictGet parameters k := by
  cases value with
  | none => rfl
  | some v => simp [PageArgument.add_to_params, dictGet_dictSet_ne parameters pa.py_name k v h]

/-- Witness for C10: writing `max_items` does not disturb `other`. -/
theorem add_to_params_frame_witness :
    dictGet (exMaxItemsArg.add_to_params [("other", "x")] (some "42")) "other" = some "x" :=
  (add_to_params_frame exMaxItemsArg [("other", "x")] (some "42") "other" (by decide)).trans rfl

/-- C4 counterexample: constructing a `PageArgument` with the unsupported
type `boolean` does not fail; the bad type is stored as-is and the
failure only surfaces later, as a `KeyError` in `add_to_parser`. -/
theorem page_argument_construction_unvalidated_cex :
    (PageArgument.init "max-items" MAX_ITEMS_HELP "boolean").parse_type = "boolean" ∧
    PageArgument.addToParser (PageArgument.init "max-items" MAX_ITEMS_HELP "boolean") [] =
      .error .keyError := by
  exact ⟨rfl, rfl⟩

/-- C4 (amended): `PageArgument.__init__` performs no type validation;
for any unsupported type the constructed argument carries that type and
`add_to_parser` fails with a `KeyError` from the `type_map` lookup —
validation is deferred to parser registration. -/
theorem page_argument_deferred_validation (name doc ty : String) (parser : List ParserEntry)
    (h : typeMapContains ty = false) :
    (PageArgument.init name doc ty).parse_type = ty ∧
    PageArgument.addToParser (PageArgument.init name doc ty) parser = .error .keyError := by
  refine ⟨rfl, ?_⟩
  simp [PageArgument.addToParser, PageArgument.init, h]

/-- Witness for the amended C4 at the unsupported type `structure`. -/
theorem page_argument_deferred_validation_witness :
    (PageArgument.init "max-items" MAX_ITEMS_HELP "structure").parse_type = "structure" ∧
    PageArgument.addToParser (PageArgument.init "max-items" MAX_ITEMS_HELP "structure") [] =
      .error .keyError :=
  page_argument_deferred_validation "max-items" MAX_ITEMS_HELP "structure" [] (by decide)

/-- C5 counterexample: an input token with no matching parameter makes
`_get_cli_name` yield `None`, but `unify_paging_params` then raises
`KeyError` instead of completing (the caller indexes the table with the
absent name). -/
theorem unmatched_token_keyerror_cex :
    get_cli_name exOpUnmatched.params "Tok" = none ∧
    unify_paging_params [("a", ⟨false, none⟩)] exOpUnmatched "ev" =
      ⟨[("a", ⟨false, none⟩)], [], some .keyError⟩ := by
  exact ⟨rfl, rfl⟩

/-- C5 (amended): when the first input token has no matching parameter
descriptor, `_get_cli_name` returns absence, but the caller does not
treat it as "no CLI name to hide": hiding indexes the table with the
absent name and `unify_paging_params` fails with `KeyError`, leaving the
table unchanged and registering nothing. -/
theorem unmatched_token_keyerror (tbl : ArgTable) (op : Operation) (ev : String)
    (t : String) (rest : List String)
    (hp : op.can_paginate = true)
    (htok : get_input_tokens op = t :: rest)
    (hmiss : op.params.find? (fun p => p.name == t) = none) :
    get_cli_name op.params t = none ∧
    unify_paging_params tbl op ev = ⟨tbl, [], some .keyError⟩ := by
  have hcli : get_cli_name op.params t = none := by simp [get_cli_name, hmiss]
  have hrm : remove_existing_paging_arguments tbl op = (tbl, some .keyError) := by
    simp [remove_existing_paging_arguments, get_all_cli_input_tokens, htok,
      yieldCliNames, hcli, hideAll, hideOne]
  refine ⟨hcli, ?_⟩
  simp [unify_paging_params, hp, hrm]

/-- Witness for the amended C5 at a concrete operation. -/
theorem unmatched_token_keyerror_witness :
    get_cli_name [⟨"Other", "--other", "string"⟩] "Zed" = none ∧
    unify_paging_params []
        ⟨"w5", true, ⟨.single "Zed", none⟩, [⟨"Other", "--other", "string"⟩]⟩ "ev2" =
      ⟨[], [], some .keyError⟩ :=
  unmatched_token_keyerror [] ⟨"w5", true, ⟨.single "Zed", none⟩,
    [⟨"Other", "--other", "string"⟩]⟩ "ev2" "Zed" [] rfl rfl rfl

/-- C2: over parsed arguments that carry an attribute for every hidden
name (hyphens converted to underscores, argparse's invariant),
`check_should_enable_pagination` returns the flag set to false exactly
when some hidden name has a non-`None` value, and returns the incoming
flag unchanged when every such value is `None`. -/
theorem detect_override_flag (names : List String) (parsed_args : ParsedArgs) (flag : Bool)
    (h : ∀ n ∈ names, (dictGet parsed_args (pyReplace n "-" "_")).isSome = true) :
    check_should_enable_pagination (names.map some) parsed_args flag =
      .ok (if names.any (suppliedIn parsed_args) then false else flag) :=
  check_eval names parsed_args flag h

/-- Witness for C2: a supplied `next_token` flips the flag to false, and
an absent (`None`) one leaves it true. -/
theorem detect_override_flag_witness :
    check_should_enable_pagination (["next-token"].map some)
        [("next_token", some "abc")] true = .ok false ∧
    check_should_enable_pagination (["next-token"].map some)
        [("next_token", none)] true = .ok true := by
  constructor
  · have h := detect_override_flag ["next-token"] [("next_token", some "abc")] true (by decide)
    simpa using h
  · have h := detect_override_flag ["next-token"] [("next_token", none)] true (by decide)
    simpa using h

/-- C6 counterexample: a hidden name whose converted form is not an
attribute of the parsed arguments makes `check_should_enable_pagination`
raise `AttributeError`, so it does have a failure path. -/
theorem detect_override_failure_cex :
    check_should_enable_pagination [some "foo"] [] true = .error (.attributeError, true) := rfl

/-- C6 (amended): when every hidden name (hyphens converted) is an
attribute of the parsed arguments, `check_should_enable_pagination`
completes without error, and running it again on the flag it produced
returns that same flag (idempotence). -/
theorem detect_override_total_idempotent (names : List String) (parsed_args : ParsedArgs)
    (flag : Bool)
    (h : ∀ n ∈ names, (dictGet parsed_args (pyReplace n "-" "_")).isSome = true) :
    check_should_enable_pagination (names.map some) parsed_args flag =
      .ok (if names.any (suppliedIn parsed_args) then false else flag) ∧
    check_should_enable_pagination (names.map some) parsed_args
        (if names.any (suppliedIn parsed_args) then false else flag) =
      .ok (if names.any (suppliedIn parsed_args) then false else flag) := by
  refine ⟨check_eval names parsed_args flag h, ?_⟩
  rw [check_eval names parsed_args _ h]
  by_cases hany : names.any (suppliedIn parsed_args) <;> simp [hany]

/-- Witness for the amended C6. -/
theorem detect_override_total_idempotent_witness :
    check_should_enable_pagination (["next-token"].map some)
        [("next_token", some "abc")] true =
      .ok (if ["next-token"].any (suppliedIn [("next_token", some "abc")]) then false
           else true) ∧
    check_should_enable_pagination (["next-token"].map some)
        [("next_token", some "abc")]
        (if ["next-token"].any (suppliedIn [("next_token", some "abc")]) then false
         else true) =
      .ok (if ["next-token"].any (suppliedIn [("next_token", some "abc")]) then false
           else true) :=
  detect_override_total_idempotent ["next-token"] [("next_token", some "abc")] true (by decide)

/-- C1 counterexample: with a `boolean`-typed limit parameter,
`unify_paging_params` raises, yet the argument table is mutated: the
pre-existing entries were hidden and `starting-token` was inserted before
the type check ran. -/
theorem unify_not_atomic_cex :
    (unify_paging_params exTableBad exOpBadLimit "ev").error.isSome = true ∧
    (unify_paging_params exTableBad exOpBadLimit "ev").table ≠ exTableBad ∧
    (dictGet (unify_paging_params exTableBad exOpBadLimit "ev").table "starting-token").isSome
      = true ∧
    dictGet exTableBad "starting-token" = none := by
  refine ⟨?_, ?_, ?_, ?_⟩ <;> decide

/-- C1 (amended): on an unsupported limit-parameter type,
`unify_paging_params` raises the configuration error (a `TypeError`
naming the type, operation and parameter), but only after hiding the
existing paging arguments, registering the post-parse callback and
inserting `starting-token`; only `max-items` is left uninserted. -/
theorem unify_unsupported_limit_type (tbl t1 : ArgTable) (op : Operation) (ev : String)
    (p : Param)
    (hp : op.can_paginate = true)
    (hhide : remove_existing_paging_arguments tbl op = (t1, none))
    (hlimit : findLimitParam op = some p)
    (hbad : typeMapContains p.type = false) :
    unify_paging_params tbl op ev =
      ⟨dictSet t1 "starting-token"
          ⟨false, some ⟨"starting-token", STARTING_TOKEN_HELP, "string"⟩⟩,
       [⟨pyReplace ev "building-argument-table." "operation-args-parsed.",
         get_all_cli_input_tokens op⟩],
       some (.typeError (unsupportedTypeMsg (limitType (some p)) op.name p.name))⟩ := by
  simp [unify_paging_params, hp, hhide, hlimit, hbad]

/-- Witness for the amended C1 at a concrete operation with a
`list`-typed limit parameter. -/
theorem unify_unsupported_limit_type_witness :
    unify_paging_params [("nt", ⟨false, none⟩), ("lk", ⟨false, none⟩)]
        ⟨"w1", true, ⟨.single "NT", some "LK"⟩,
         [⟨"NT", "--nt", "string"⟩, ⟨"LK", "--lk", "list"⟩]⟩ "ev" =
      ⟨dictSet [("nt", ⟨true, none⟩), ("lk", ⟨true, none⟩)] "starting-token"
          ⟨false, some ⟨"starting-token", STARTING_TOKEN_HELP, "string"⟩⟩,
       [⟨pyReplace "ev" "building-argument-table." "operation-args-parsed.",
         get_all_cli_input_tokens
           ⟨"w1", true, ⟨.single "NT", some "LK"⟩,
            [⟨"NT", "--nt", "string"⟩, ⟨"LK", "--lk", "list"⟩]⟩⟩],
       some (.typeError
         (unsupportedTypeMsg (limitType (some ⟨"LK", "--lk", "list"⟩)) "w1" "LK"))⟩ :=
  unify_unsupported_limit_type [("nt", ⟨false, none⟩), ("lk", ⟨false, none⟩)]
    [("nt", ⟨true, none⟩), ("lk", ⟨true, none⟩)]
    ⟨"w1", true, ⟨.single "NT", some "LK"⟩,
     [⟨"NT", "--nt", "string"⟩, ⟨"LK", "--lk", "list"⟩]⟩ "ev"
    ⟨"LK", "--lk", "list"⟩ rfl (by decide) rfl rfl

/-- C3: for a paginating operation with a single-name input token and no
limit key, `unify_paging_params` succeeds, hides exactly the one
pre-existing entry for that token (in place, not removed), and inserts
exactly the two new entries `starting-token` and `max-items`, the latter
integer-typed; every other entry is untouched. -/
theorem unify_single_token_no_limit (tbl : ArgTable) (op : Operation) (ev : String)
    (tok c : String) (e : ArgEntry)
    (hp : op.can_paginate = true)
    (hsingle : op.pagination.input_token = .single tok)
    (hnolimit : op.pagination.limit_key = none)
    (hcli : get_cli_name op.params tok = some c)
    (hentry : dictGet tbl c = some e)
    (hst : dictGet tbl "starting-token" = none)
    (hmi : dictGet tbl "max-items" = none) :
    (unify_paging_params tbl op ev).error = none ∧
    (unify_paging_params tbl op ev).table.length = tbl.length + 2 ∧
    dictGet (unify_paging_params tbl op ev).table c = some { e with undocumented := true } ∧
    dictGet (unify_paging_params tbl op ev).table "starting-token" =
      some ⟨false, some ⟨"starting-token", STARTING_TOKEN_HELP, "string"⟩⟩ ∧
    dictGet (unify_paging_params tbl op ev).table "max-items" =
      some ⟨false, some ⟨"max-items", MAX_ITEMS_HELP, "integer"⟩⟩ ∧
    ∀ k, k ≠ c → k ≠ "starting-token" → k ≠ "max-items" →
      dictGet (unify_paging_params tbl op ev).table k = dictGet tbl k := by
  have hc_st : c ≠ "starting-token" := by
    intro hcs; rw [hcs, hst] at hentry; exact Option.noConfusion hentry
  have hc_mi : c ≠ "max-items" := by
    intro hcm; rw [hcm, hmi] at hentry; exact Option.noConfusion hentry
  have htoks : get_all_cli_input_tokens op = [some c] := by
    simp [get_all_cli_input_tokens, get_input_tokens, hsingle, hnolimit, yieldCliNames, hcli]
  have hrm : remove_existing_paging_arguments tbl op =
      (dictSet tbl c { e with undocumented := true }, none) := by
    simp [remove_existing_paging_arguments, htoks, hideAll, hideOne, hentry]
  have hlim : findLimitParam op = none := by simp [findLimitParam, hnolimit]
  have hout : unify_paging_params tbl op ev =
      ⟨dictSet (dictSet (dictSet tbl c { e with undocumented := true }) "starting-token"
          ⟨false, some ⟨"starting-token", STARTING_TOKEN_HELP, "string"⟩⟩) "max-items"
          ⟨false, some ⟨"max-items", MAX_ITEMS_HELP, "integer"⟩⟩,
        [⟨pyReplace ev "building-argument-table." "operation-args-parsed.",
          get_all_cli_input_tokens op⟩], none⟩ := by
    simp [unify_paging_params, hp, hrm, hlim, limitType]
  have ht1_st : dictGet (dictSet tbl c { e with undocumented := true }) "starting-token"
      = none := by
    rw [dictGet_dictSet_ne tbl c "starting-token" _ (Ne.symm hc_st), hst]
  have ht1_mi : dictGet (dictSet tbl c { e with undocumented := true }) "max-items"
      = none := by
    rw [dictGet_dictSet_ne tbl c "max-items" _ (Ne.symm hc_mi), hmi]
  have ht2_mi : dictGet (dictSet (dictSet tbl c { e with undocumented := true })
      "starting-token" ⟨false, some ⟨"starting-token", STARTING_TOKEN_HELP, "string"⟩⟩)
      "max-items" = none := by
    rw [dictGet_dictSet_ne _ _ _ _ (by decide), ht1_mi]
  rw [hout]
  refine ⟨rfl, ?_, ?_, ?_, ?_, ?_⟩
  · show (dictSet _ "max-items" _).length = tbl.length + 2
    rw [length_dictSet_of_not_mem _ _ _ ht2_mi, length_dictSet_of_not_mem _ _ _ ht1_st,
      length_dictSet_of_mem tbl c _ e hentry]
  · rw [dictGet_dictSet_ne _ _ _ _ hc_mi, dictGet_dictSet_ne _ _ _ _ hc_st,
      dictGet_dictSet_self]
  · rw [dictGet_dictSet_ne _ _ _ _ (by decide), dictGet_dictSet_self]
  · rw [dictGet_dictSet_self]
  · intro k hkc hkst hkmi
    rw [dictGet_dictSet_ne _ _ _ _ hkmi, dictGet_dictSet_ne _ _ _ _ hkst,
      dictGet_dictSet_ne _ _ _ _ hkc]

/-- Witness for C3 at a concrete operation and table. -/
theorem unify_single_token_no_limit_witness :
    (unify_paging_params exTableSingle exOpSingle "building-argument-table.x.y").error
      = none ∧
    (unify_paging_params exTableSingle exOpSingle "building-argument-table.x.y").table.length
      = 3 ∧
    dictGet (unify_paging_params exTableSingle exOpSingle
        "building-argument-table.x.y").table "next-token" = some ⟨true, none⟩ ∧
    dictGet (unify_paging_params exTableSingle exOpSingle
        "building-argument-table.x.y").table "max-items" =
      some ⟨false, some ⟨"max-items", MAX_ITEMS_HELP, "integer"⟩⟩ := by
  have h := unify_single_token_no_limit exTableSingle exOpSingle "building-argument-table.x.y"
    "NextToken" "next-token" ⟨false, none⟩ rfl rfl rfl (by decide) (by decide) rfl rfl
  exact ⟨h.1, by rw [h.2.1]; rfl, h.2.2.1, h.2.2.2.2.1⟩

end Paginate
